import Mathlib

/-!
Shallow embedding of the storyboard-generation app in `src/index.tsx`.

The app component holds five pieces of React state (`storyboard`, `concept`,
`currentSceneIndex`, `isLoading`, `error`).  Its core operation
`generateStoryboard` runs a two-phase pipeline: one schema-constrained
text-generation call producing the scene narrations, then one image-generation
call per scene, sequentially, publishing the updated storyboard after each
step.  We model the two external services as oracles (the text response by its
`JSON.parse` outcome, each image call by an optional base64 payload) and the
run as a pure function from the initial state and the oracles to the ordered
trace of state-setter events together with the final state.
-/

namespace Storyboard

/-- JSON values, as produced by `JSON.parse` in the host language. -/
inductive Json where
  | null
  | bool (b : Bool)
  | num (n : Int)
  | str (s : String)
  | arr (elems : List Json)
  | obj (fields : List (String × Json))

/-- JS property access `v.key` on a parsed JSON value: `none` means the access
throws (reading a property of `null`), `some none` means the property is
`undefined`, `some (some w)` is a present field. -/
def getField : Json → String → Option (Option Json)
  | Json.null, _ => none
  | Json.obj fields, key => some ((fields.find? (fun p => p.1 == key)).map (fun p => p.2))
  | _, _ => some none

/-- The `Scene` interface of `src/index.tsx` (lines 5-9).  `narration` is
whatever `s.narration` evaluated to when the storyboard was built (`none`
models the JS value `undefined`); `imageUrl` is `null`/`none` until an image
resolves. -/
structure Scene where
  narration : Option Json
  imageUrl : Option String
  isLoadingImage : Bool

/-- The React state of the `App` component (lines 12-16). -/
structure AppState where
  storyboard : List Scene
  concept : String
  currentSceneIndex : Int
  isLoading : Bool
  error : Option String

/-- Outcome of the text-generation network call: either the await throws
(network error), or it yields a response text, modelled by the result of
`JSON.parse` on it (`none` = the parse throws). -/
inductive TextResult where
  | networkError
  | response (parsed : Option Json)

/-- One observable step of a run: a React state-setter call or the issuing of
a network call. -/
inductive Event where
  | setIsLoading (b : Bool)
  | setError (e : Option String)
  | setStoryboard (sb : List Scene)
  | setCurrentSceneIndex (i : Int)
  | textCall
  | imageCall (sceneIdx : Nat)

/-- The guard `concept.trim() === ""` (line 21): a string trims to the empty
string exactly when every one of its characters is whitespace, so the blank
test is modelled by that (kernel-computable) characterisation. -/
def isBlank (s : String) : Bool := s.data.all Char.isWhitespace

/-- The message set by the blank-concept guard (line 22). -/
def validationMsg : String := "Please enter a concept to explain."

/-- The generic message set by the outer catch (line 104). -/
def failMsg : String := "Failed to generate the storyboard. Please try again."

/-- The data URI built from the returned image bytes (line 87). -/
def dataUrl (bytes : String) : String := "data:image/jpeg;base64," ++ bytes

/-- One step of `parsedScenes.map(...)` (lines 58-62): reads `s.narration`
(which throws on a `null` element) and builds a pending scene. -/
def mkScene (s : Json) : Option Scene :=
  (getField s "narration").map
    (fun n => { narration := n, imageUrl := none, isLoadingImage := true })

/-- `parsedScenes.map(...)` over the elements of the parsed array; `none` if
some element access throws. -/
def mkScenes : List Json → Option (List Scene)
  | [] => some []
  | s :: rest =>
    match mkScene s, mkScenes rest with
    | some sc, some scs => some (sc :: scs)
    | _, _ => none

/-- Lines 57-62: `JSON.parse` already happened; `.map` throws a TypeError
unless the parsed value is an array, and then maps over its elements. -/
def mkInitialStoryboard : Json → Option (List Scene)
  | Json.arr elems => mkScenes elems
  | _ => none

/-- Merge one image result into scene `i`: the success branch (lines 89-91)
sets the data URI, the catch branch (lines 96-98) clears the URL; both stop
the per-scene loading flag. -/
def sceneAfterImage (res : Option String) (s : Scene) : Scene :=
  match res with
  | some bytes => { s with imageUrl := some (dataUrl bytes), isLoadingImage := false }
  | none => { s with isLoadingImage := false, imageUrl := none }

/-- `list.map((s, index) => f index s)` with explicit start index. -/
def mapIdxFrom (f : Nat → Scene → Scene) : Nat → List Scene → List Scene
  | _, [] => []
  | k, s :: rest => f k s :: mapIdxFrom f (k + 1) rest

/-- `currentStoryboard.map((s, index) => index === i ? merged : s)`. -/
def applyImageResult (sb : List Scene) (i : Nat) (res : Option String) : List Scene :=
  mapIdxFrom (fun idx s => if idx = i then sceneAfterImage res s else s) 0 sb

/-- The sequential image loop (lines 67-101): `i` is the current scene index,
the fuel is the number of iterations left (the loop bound is the installed
storyboard's length).  Each iteration issues one image call, merges the
result (success or isolated failure) and publishes the updated storyboard. -/
def imageLoop (oracle : Nat → Option String) :
    Nat → Nat → List Scene → List Event × List Scene
  | _, 0, sb => ([], sb)
  | i, r + 1, sb =>
    let sb' := applyImageResult sb i (oracle i)
    let rest := imageLoop oracle (i + 1) r sb'
    (Event.imageCall i :: Event.setStoryboard sb' :: rest.1, rest.2)

/-- The storyboards published by the image loop, in order. -/
def loopSnapshots (oracle : Nat → Option String) :
    Nat → Nat → List Scene → List (List Scene)
  | _, 0, _ => []
  | i, r + 1, sb =>
    let sb' := applyImageResult sb i (oracle i)
    sb' :: loopSnapshots oracle (i + 1) r sb'

/-- `generateStoryboard` (lines 20-108) as a pure function from the current
state and the two service oracles to the event trace and the final state. -/
def generateStoryboard (st : AppState) (textRes : TextResult)
    (oracle : Nat → Option String) : List Event × AppState :=
  if isBlank st.concept then
    ([Event.setError (some validationMsg)], { st with error := some validationMsg })
  else
    let st1 : AppState :=
      { st with isLoading := true, error := none, storyboard := [], currentSceneIndex := 0 }
    let pre : List Event :=
      [Event.setIsLoading true, Event.setError none,
        Event.setStoryboard [], Event.setCurrentSceneIndex 0]
    match textRes with
    | TextResult.networkError =>
      (pre ++ [Event.textCall, Event.setError (some failMsg), Event.setIsLoading false],
        { st1 with error := some failMsg, isLoading := false })
    | TextResult.response parsed =>
      match parsed.bind mkInitialStoryboard with
      | none =>
        (pre ++ [Event.textCall, Event.setError (some failMsg), Event.setIsLoading false],
          { st1 with error := some failMsg, isLoading := false })
      | some init =>
        let looped := imageLoop oracle 0 init.length init
        (pre ++ Event.textCall :: Event.setStoryboard init ::
            (looped.1 ++ [Event.setIsLoading false]),
          { st1 with storyboard := looped.2, isLoading := false })

/-- `handlePrev` (lines 110-112): decrement the cursor, clamped at 0. -/
def handlePrev (cursor : Int) : Int := max (cursor - 1) 0

/-- `handleNext` (lines 114-116): increment the cursor, clamped at
`storyboard.length - 1` (computed in JS arithmetic, so `-1` when empty). -/
def handleNext (cursor : Int) (len : Nat) : Int := min (cursor + 1) ((len : Int) - 1)

/-- The storyboards published during a trace, in order. -/
def publishedStoryboards : List Event → List (List Scene)
  | [] => []
  | Event.setStoryboard sb :: rest => sb :: publishedStoryboards rest
  | _ :: rest => publishedStoryboards rest

/-- A demo initial component state with a non-blank concept. -/
def demoState : AppState :=
  { storyboard := [], concept := "how rockets work", currentSceneIndex := 0,
    isLoading := false, error := none }

/-- A well-formed scene descriptor as the schema requests. -/
def demoElem : Json :=
  Json.obj [("scene", Json.num 1), ("narration", Json.str "Glitch sees a rocket.")]

/-- Five well-formed descriptors. -/
def demoElems : List Json := [demoElem, demoElem, demoElem, demoElem, demoElem]

/-- The pending scene built from `demoElem`. -/
def demoScene : Scene :=
  { narration := some (Json.str "Glitch sees a rocket."), imageUrl := none,
    isLoadingImage := true }

/-- The storyboard installed from `demoElems`. -/
def demoInit : List Scene := [demoScene, demoScene, demoScene, demoScene, demoScene]

/-- An image oracle where only scene 2 fails. -/
def demoOracle : Nat → Option String := fun i => if i = 2 then none else some "QUJD"

/-! ### Basic lemmas about the indexed map and the image merge -/

theorem length_mapIdxFrom (f : Nat → Scene → Scene) :
    ∀ (k : Nat) (sb : List Scene), (mapIdxFrom f k sb).length = sb.length := by
  intro k sb
  induction sb generalizing k with
  | nil => rfl
  | cons s rest ih => simp [mapIdxFrom, ih]

theorem get?_mapIdxFrom (f : Nat → Scene → Scene) :
    ∀ (sb : List Scene) (k j : Nat),
      (mapIdxFrom f k sb)[j]? = sb[j]?.map (f (k + j)) := by
  intro sb
  induction sb with
  | nil => intro k j; simp [mapIdxFrom]
  | cons s rest ih =>
    intro k j
    cases j with
    | zero => simp [mapIdxFrom]
    | succ j =>
      simp only [mapIdxFrom, List.getElem?_cons_succ, ih (k + 1) j]
      have h : k + 1 + j = k + (j + 1) := by omega
      rw [h]

theorem narration_sceneAfterImage (res : Option String) (s : Scene) :
    (sceneAfterImage res s).narration = s.narration := by
  cases res <;> rfl

theorem map_narration_mapIdxFrom (f : Nat → Scene → Scene)
    (hf : ∀ k s, (f k s).narration = s.narration) :
    ∀ (k : Nat) (sb : List Scene),
      (mapIdxFrom f k sb).map Scene.narration = sb.map Scene.narration := by
  intro k sb
  induction sb generalizing k with
  | nil => rfl
  | cons s rest ih => simp [mapIdxFrom, hf, ih]

theorem length_applyImageResult (sb : List Scene) (i : Nat) (res : Option String) :
    (applyImageResult sb i res).length = sb.length :=
  length_mapIdxFrom _ 0 sb

theorem get?_applyImageResult (sb : List Scene) (i j : Nat) (res : Option String) :
    (applyImageResult sb i res)[j]? =
      sb[j]?.map (fun s => if j = i then sceneAfterImage res s else s) := by
  unfold applyImageResult
  rw [get?_mapIdxFrom]
  simp

theorem map_narration_applyImageResult (sb : List Scene) (i : Nat) (res : Option String) :
    (applyImageResult sb i res).map Scene.narration = sb.map Scene.narration := by
  unfold applyImageResult
  apply map_narration_mapIdxFrom
  intro k s
  by_cases h : k = i <;> simp [h, narration_sceneAfterImage]

/-! ### Characterisation of the sequential image loop -/

theorem imageLoop_length (oracle : Nat → Option String) :
    ∀ (r i : Nat) (sb : List Scene), ((imageLoop oracle i r sb).2).length = sb.length := by
  intro r
  induction r with
  | zero => intro i sb; rfl
  | succ r ih =>
    intro i sb
    simp only [imageLoop, ih, length_applyImageResult]

theorem imageLoop_get (oracle : Nat → Option String) :
    ∀ (r i : Nat) (sb : List Scene) (j : Nat),
      ((imageLoop oracle i r sb).2)[j]? =
        if i ≤ j ∧ j < i + r then sb[j]?.map (sceneAfterImage (oracle j))
        else sb[j]? := by
  intro r
  induction r with
  | zero =>
    intro i sb j
    rw [if_neg (show ¬ (i ≤ j ∧ j < i + 0) by omega)]
    rfl
  | succ r ih =>
    intro i sb j
    simp only [imageLoop]
    rw [ih (i + 1), get?_applyImageResult]
    by_cases hj : j = i
    · subst hj
      rw [if_neg (show ¬ (j + 1 ≤ j ∧ j < j + 1 + r) by omega),
        if_pos (show j ≤ j ∧ j < j + (r + 1) by omega)]
      simp
    · by_cases hrange : i + 1 ≤ j ∧ j < i + 1 + r
      · rw [if_pos hrange, if_pos (show i ≤ j ∧ j < i + (r + 1) by omega)]
        cases sb[j]? <;> simp [hj]
      · rw [if_neg hrange, if_neg (show ¬ (i ≤ j ∧ j < i + (r + 1)) by omega)]
        cases sb[j]? <;> simp [hj]

theorem imageLoop_map_narration (oracle : Nat → Option String) :
    ∀ (r i : Nat) (sb : List Scene),
      ((imageLoop oracle i r sb).2).map Scene.narration = sb.map Scene.narration := by
  intro r
  induction r with
  | zero => intro i sb; rfl
  | succ r ih =>
    intro i sb
    simp only [imageLoop]
    rw [ih (i + 1), map_narration_applyImageResult]

theorem imageLoop_no_setIsLoading (oracle : Nat → Option String) :
    ∀ (r i : Nat) (sb : List Scene) (b : Bool),
      Event.setIsLoading b ∉ (imageLoop oracle i r sb).1 := by
  intro r
  induction r with
  | zero => intro i sb b; simp [imageLoop]
  | succ r ih =>
    intro i sb b
    simp only [imageLoop, List.mem_cons]
    push_neg
    refine ⟨by simp, by simp, ih (i + 1) _ b⟩

theorem publishedStoryboards_imageLoop (oracle : Nat → Option String) :
    ∀ (r i : Nat) (sb : List Scene),
      publishedStoryboards (imageLoop oracle i r sb).1 = loopSnapshots oracle i r sb := by
  intro r
  induction r with
  | zero => intro i sb; rfl
  | succ r ih =>
    intro i sb
    simp only [imageLoop, loopSnapshots, publishedStoryboards, ih (i + 1)]

theorem loopSnapshots_length (oracle : Nat → Option String) :
    ∀ (r i : Nat) (sb : List Scene), (loopSnapshots oracle i r sb).length = r := by
  intro r
  induction r with
  | zero => intro i sb; rfl
  | succ r ih => intro i sb; simp [loopSnapshots, ih (i + 1)]

theorem loopSnapshots_get? (oracle : Nat → Option String) :
    ∀ (r k i : Nat) (sb : List Scene), k < r →
      (loopSnapshots oracle i r sb)[k]? = some ((imageLoop oracle i (k + 1) sb).2) := by
  intro r
  induction r with
  | zero => intro k i sb hk; omega
  | succ r ih =>
    intro k i sb hk
    cases k with
    | zero => simp [loopSnapshots, imageLoop]
    | succ k =>
      have hk' : k < r := by omega
      simp only [loopSnapshots, List.getElem?_cons_succ, ih k (i + 1) _ hk']
      rfl

theorem mem_loopSnapshots_map_narration (oracle : Nat → Option String) :
    ∀ (r i : Nat) (sb : List Scene), ∀ sb' ∈ loopSnapshots oracle i r sb,
      sb'.map Scene.narration = sb.map Scene.narration := by
  intro r
  induction r with
  | zero => intro i sb sb' h; simp [loopSnapshots] at h
  | succ r ih =>
    intro i sb sb' h
    simp only [loopSnapshots, List.mem_cons] at h
    rcases h with h | h
    · subst h; exact map_narration_applyImageResult sb i (oracle i)
    · rw [ih (i + 1) _ sb' h, map_narration_applyImageResult]

/-! ### Lemmas about the installed storyboard -/

theorem mkScenes_length :
    ∀ (elems : List Json) (init : List Scene), mkScenes elems = some init →
      init.length = elems.length := by
  intro elems
  induction elems with
  | nil => intro init h; simp [mkScenes] at h; simp [← h]
  | cons e rest ih =>
    intro init h
    simp only [mkScenes] at h
    cases h1 : mkScene e with
    | none => rw [h1] at h; simp at h
    | some sc =>
      cases h2 : mkScenes rest with
      | none => rw [h1, h2] at h; simp at h
      | some scs =>
        rw [h1, h2] at h
        simp at h
        subst h
        simp [ih scs h2]

theorem mkScenes_pending :
    ∀ (elems : List Json) (init : List Scene), mkScenes elems = some init →
      ∀ s ∈ init, s.imageUrl = none ∧ s.isLoadingImage = true := by
  intro elems
  induction elems with
  | nil => intro init h s hs; simp [mkScenes] at h; subst h; simp at hs
  | cons e rest ih =>
    intro init h s hs
    simp only [mkScenes] at h
    cases h1 : mkScene e with
    | none => rw [h1] at h; simp at h
    | some sc =>
      cases h2 : mkScenes rest with
      | none => rw [h1, h2] at h; simp at h
      | some scs =>
        rw [h1, h2] at h
        simp at h
        subst h
        rcases List.mem_cons.mp hs with hs | hs
        · subst hs
          unfold mkScene at h1
          cases hg : getField e "narration" with
          | none => rw [hg] at h1; simp at h1
          | some n => rw [hg] at h1; simp at h1; simp [← h1]
        · exact ih scs h2 s hs

theorem mkScenes_narration_mem :
    ∀ (elems : List Json) (init : List Scene), mkScenes elems = some init →
      ∀ s ∈ init, ∃ e ∈ elems, getField e "narration" = some s.narration := by
  intro elems
  induction elems with
  | nil => intro init h s hs; simp [mkScenes] at h; subst h; simp at hs
  | cons e rest ih =>
    intro init h s hs
    simp only [mkScenes] at h
    cases h1 : mkScene e with
    | none => rw [h1] at h; simp at h
    | some sc =>
      cases h2 : mkScenes rest with
      | none => rw [h1, h2] at h; simp at h
      | some scs =>
        rw [h1, h2] at h
        simp at h
        subst h
        rcases List.mem_cons.mp hs with hs | hs
        · subst hs
          refine ⟨e, List.mem_cons_self e rest, ?_⟩
          unfold mkScene at h1
          cases hg : getField e "narration" with
          | none => rw [hg] at h1; simp at h1
          | some n => rw [hg] at h1; simp at h1; simp [← h1]
        · obtain ⟨e', he', hg⟩ := ih scs h2 s hs
          exact ⟨e', List.mem_cons_of_mem e he', hg⟩

/-! ### Path lemmas for `generateStoryboard` -/

theorem run_blank (st : AppState) (t : TextResult) (oracle : Nat → Option String)
    (hb : isBlank st.concept = true) :
    generateStoryboard st t oracle =
      ([Event.setError (some validationMsg)], { st with error := some validationMsg }) := by
  simp [generateStoryboard, hb]

theorem run_networkError (st : AppState) (oracle : Nat → Option String)
    (hb : isBlank st.concept = false) :
    generateStoryboard st TextResult.networkError oracle =
      ([Event.setIsLoading true, Event.setError none, Event.setStoryboard [],
        Event.setCurrentSceneIndex 0, Event.textCall, Event.setError (some failMsg),
        Event.setIsLoading false],
        ⟨[], st.concept, 0, false, some failMsg⟩) := by
  simp [generateStoryboard, hb]

theorem run_badParse (st : AppState) (oracle : Nat → Option String) (p : Option Json)
    (hb : isBlank st.concept = false) (hbad : p.bind mkInitialStoryboard = none) :
    generateStoryboard st (TextResult.response p) oracle =
      ([Event.setIsLoading true, Event.setError none, Event.setStoryboard [],
        Event.setCurrentSceneIndex 0, Event.textCall, Event.setError (some failMsg),
        Event.setIsLoading false],
        ⟨[], st.concept, 0, false, some failMsg⟩) := by
  simp [generateStoryboard, hb, hbad]

theorem run_install (st : AppState) (oracle : Nat → Option String) (p : Option Json)
    (init : List Scene)
    (hb : isBlank st.concept = false) (hinit : p.bind mkInitialStoryboard = some init) :
    generateStoryboard st (TextResult.response p) oracle =
      ([Event.setIsLoading true, Event.setError none, Event.setStoryboard [],
        Event.setCurrentSceneIndex 0, Event.textCall, Event.setStoryboard init] ++
        ((imageLoop oracle 0 init.length init).1 ++ [Event.setIsLoading false]),
        ⟨(imageLoop oracle 0 init.length init).2, st.concept, 0, false, none⟩) := by
  simp [generateStoryboard, hb, hinit]

theorem publishedStoryboards_append (l1 l2 : List Event) :
    publishedStoryboards (l1 ++ l2) =
      publishedStoryboards l1 ++ publishedStoryboards l2 := by
  induction l1 with
  | nil => rfl
  | cons e rest ih => cases e <;> simp [publishedStoryboards, ih]

theorem publishedStoryboards_install (st : AppState) (oracle : Nat → Option String)
    (p : Option Json) (init : List Scene)
    (hb : isBlank st.concept = false) (hinit : p.bind mkInitialStoryboard = some init) :
    publishedStoryboards (generateStoryboard st (TextResult.response p) oracle).1 =
      [] :: init :: loopSnapshots oracle 0 init.length init := by
  rw [run_install st oracle p init hb hinit]
  have h1 : publishedStoryboards
      ((imageLoop oracle 0 init.length init).1 ++ [Event.setIsLoading false]) =
      loopSnapshots oracle 0 init.length init := by
    rw [publishedStoryboards_append, publishedStoryboards_imageLoop]
    simp [publishedStoryboards]
  simp only [List.cons_append, List.append_eq, List.nil_append, publishedStoryboards, h1]

theorem bind_mkInitialStoryboard_some (p : Option Json) (init : List Scene)
    (h : p.bind mkInitialStoryboard = some init) :
    ∃ elems, p = some (Json.arr elems) ∧ mkScenes elems = some init := by
  cases p with
  | none => simp at h
  | some j =>
    cases j with
    | arr elems =>
      refine ⟨elems, rfl, ?_⟩
      simpa [mkInitialStoryboard] using h
    | null => simp [mkInitialStoryboard] at h
    | bool b => simp [mkInitialStoryboard] at h
    | num n => simp [mkInitialStoryboard] at h
    | str s => simp [mkInitialStoryboard] at h
    | obj fields => simp [mkInitialStoryboard] at h

theorem install_snapshots_get (oracle : Nat → Option String) (init : List Scene)
    (k : Nat) (hk : k ≤ init.length) :
    (init :: loopSnapshots oracle 0 init.length init)[k]? =
      some ((imageLoop oracle 0 k init).2) := by
  cases k with
  | zero => simp [imageLoop]
  | succ k =>
    simp only [List.getElem?_cons_succ]
    exact loopSnapshots_get? oracle init.length k 0 init (by omega)

/-! ### The claims -/

/-- C7: for every storyboard of positive length, a cursor inside
`[0, length-1]` stays there under both navigation operations, and each is a
no-op at its boundary: `handlePrev` at 0 returns 0, `handleNext` at
`length-1` returns `length-1`. -/
theorem C7_cursor_bounded (cursor : Int) (len : Nat) (hlen : 0 < len)
    (hlo : 0 ≤ cursor) (hhi : cursor ≤ (len : Int) - 1) :
    (0 ≤ handlePrev cursor ∧ handlePrev cursor ≤ (len : Int) - 1) ∧
    (0 ≤ handleNext cursor len ∧ handleNext cursor len ≤ (len : Int) - 1) ∧
    (cursor = 0 → handlePrev cursor = 0) ∧
    (cursor = (len : Int) - 1 → handleNext cursor len = (len : Int) - 1) := by
  unfold handlePrev handleNext
  refine ⟨⟨?_, ?_⟩, ⟨?_, ?_⟩, ?_, ?_⟩ <;> omega

/-- Witness for C7: the cursor 0 of a 5-scene storyboard. -/
theorem C7_cursor_bounded_witness :
    (0 ≤ handlePrev 0 ∧ handlePrev 0 ≤ ((5 : Nat) : Int) - 1) ∧
    (0 ≤ handleNext 0 5 ∧ handleNext 0 5 ≤ ((5 : Nat) : Int) - 1) ∧
    ((0 : Int) = 0 → handlePrev 0 = 0) ∧
    ((0 : Int) = ((5 : Nat) : Int) - 1 → handleNext 0 5 = ((5 : Nat) : Int) - 1) :=
  C7_cursor_bounded 0 5 (by decide) (by decide) (by decide)

/-- C9: on an empty storyboard `handleNext` clamps the incremented cursor to
`length - 1 = -1` (JS arithmetic) instead of leaving it unchanged, so from
any nonnegative cursor the result is the negative index -1; the cursor's
nonnegativity therefore needs the precondition `length > 0`. -/
theorem C9_empty_next (cursor : Int) (h : 0 ≤ cursor) :
    handleNext cursor 0 = -1 ∧ handleNext cursor 0 < 0 ∧ handleNext cursor 0 ≠ cursor := by
  unfold handleNext
  refine ⟨?_, ?_, ?_⟩ <;> omega

/-- Witness for C9: `next()` from cursor 0 on the empty storyboard. -/
theorem C9_empty_next_witness :
    handleNext 0 0 = -1 ∧ handleNext 0 0 < 0 ∧ handleNext 0 0 ≠ 0 :=
  C9_empty_next 0 (by decide)

/-- C8: a blank (all-whitespace) concept is rejected immediately: the run's
only event sets the validation message, so no network call is issued, the
busy flag is never set, and the storyboard and cursor are left unchanged. -/
theorem C8_blank_rejected (st : AppState) (t : TextResult)
    (oracle : Nat → Option String) (hb : isBlank st.concept = true) :
    generateStoryboard st t oracle =
      ([Event.setError (some validationMsg)], { st with error := some validationMsg }) ∧
    (generateStoryboard st t oracle).2.storyboard = st.storyboard ∧
    (generateStoryboard st t oracle).2.currentSceneIndex = st.currentSceneIndex ∧
    (generateStoryboard st t oracle).2.isLoading = st.isLoading ∧
    Event.textCall ∉ (generateStoryboard st t oracle).1 ∧
    (∀ i, Event.imageCall i ∉ (generateStoryboard st t oracle).1) ∧
    (∀ b, Event.setIsLoading b ∉ (generateStoryboard st t oracle).1) := by
  have h := run_blank st t oracle hb
  rw [h]
  refine ⟨rfl, rfl, rfl, rfl, by simp, fun i => by simp, fun b => by simp⟩

/-- Witness for C8: a whitespace-only concept over a populated state. -/
theorem C8_blank_rejected_witness :
    isBlank "   " = true ∧
    generateStoryboard ⟨demoInit, "   ", 2, false, none⟩ TextResult.networkError demoOracle =
      ([Event.setError (some validationMsg)],
        { (⟨demoInit, "   ", 2, false, none⟩ : AppState) with error := some validationMsg }) :=
  ⟨by decide,
    (C8_blank_rejected ⟨demoInit, "   ", 2, false, none⟩ TextResult.networkError demoOracle
      (by decide)).1⟩

/-- C5: when the text-generation call throws or its response is malformed
(unparsable, not an array, or an element access throws), the storyboard is
never populated: every snapshot published during the run is empty, the final
storyboard is empty, the generic error message is surfaced, and the busy
flag returns to false. -/
theorem C5_text_failure_aborts (st : AppState) (t : TextResult)
    (oracle : Nat → Option String) (hb : isBlank st.concept = false)
    (hfail : t = TextResult.networkError ∨
      ∃ p, t = TextResult.response p ∧ p.bind mkInitialStoryboard = none) :
    (generateStoryboard st t oracle).2.storyboard = [] ∧
    (generateStoryboard st t oracle).2.error = some failMsg ∧
    (generateStoryboard st t oracle).2.isLoading = false ∧
    ∀ sb ∈ publishedStoryboards (generateStoryboard st t oracle).1, sb = [] := by
  rcases hfail with h | ⟨p, hp, hbad⟩
  · subst h
    rw [run_networkError st oracle hb]
    refine ⟨rfl, rfl, rfl, ?_⟩
    intro sb hsb
    simpa [publishedStoryboards] using hsb
  · subst hp
    rw [run_badParse st oracle p hb hbad]
    refine ⟨rfl, rfl, rfl, ?_⟩
    intro sb hsb
    simpa [publishedStoryboards] using hsb

/-- Witness for C5: a response that fails `JSON.parse`. -/
theorem C5_text_failure_aborts_witness :
    isBlank demoState.concept = false ∧
    (generateStoryboard demoState (TextResult.response none) demoOracle).2.storyboard = [] ∧
    (generateStoryboard demoState (TextResult.response none) demoOracle).2.error = some failMsg :=
  ⟨by decide,
    (C5_text_failure_aborts demoState (TextResult.response none) demoOracle (by decide)
      (Or.inr ⟨none, rfl, rfl⟩)).1,
    (C5_text_failure_aborts demoState (TextResult.response none) demoOracle (by decide)
      (Or.inr ⟨none, rfl, rfl⟩)).2.1⟩

/-- C6: the busy flag brackets exactly the span of a run started with a
non-blank concept: the trace opens by setting it true, closes by setting it
false, with no other busy transition in between, and the final state has it
false, on the fatal-abort path and the normal-completion path alike; a
blank-concept invocation never touches the busy flag. -/
theorem C6_busy_flag_span (st : AppState) (t : TextResult)
    (oracle : Nat → Option String) :
    (isBlank st.concept = false →
      (∃ mid, (generateStoryboard st t oracle).1 =
          Event.setIsLoading true :: (mid ++ [Event.setIsLoading false]) ∧
        ∀ b, Event.setIsLoading b ∉ mid) ∧
      (generateStoryboard st t oracle).2.isLoading = false) ∧
    (isBlank st.concept = true →
      (∀ b, Event.setIsLoading b ∉ (generateStoryboard st t oracle).1) ∧
      (generateStoryboard st t oracle).2.isLoading = st.isLoading) := by
  constructor
  · intro hb
    cases t with
    | networkError =>
      rw [run_networkError st oracle hb]
      exact ⟨⟨[Event.setError none, Event.setStoryboard [], Event.setCurrentSceneIndex 0,
        Event.textCall, Event.setError (some failMsg)], rfl, fun b => by simp⟩, rfl⟩
    | response p =>
      cases hmk : p.bind mkInitialStoryboard with
      | none =>
        rw [run_badParse st oracle p hb hmk]
        exact ⟨⟨[Event.setError none, Event.setStoryboard [], Event.setCurrentSceneIndex 0,
          Event.textCall, Event.setError (some failMsg)], rfl, fun b => by simp⟩, rfl⟩
      | some init =>
        rw [run_install st oracle p init hb hmk]
        refine ⟨⟨[Event.setError none, Event.setStoryboard [], Event.setCurrentSceneIndex 0,
          Event.textCall, Event.setStoryboard init] ++
            (imageLoop oracle 0 init.length init).1, ?_, ?_⟩, rfl⟩
        · simp
        · intro b
          simp only [List.mem_append]
          push_neg
          exact ⟨by simp, imageLoop_no_setIsLoading oracle init.length 0 init b⟩
  · intro hb
    rw [run_blank st t oracle hb]
    exact ⟨fun b => by simp, rfl⟩

/-- Witness for C6: the fatal-abort path on a non-blank concept. -/
theorem C6_busy_flag_span_witness :
    isBlank demoState.concept = false ∧
    (∃ mid, (generateStoryboard demoState TextResult.networkError demoOracle).1 =
        Event.setIsLoading true :: (mid ++ [Event.setIsLoading false]) ∧
      ∀ b, Event.setIsLoading b ∉ mid) ∧
    (generateStoryboard demoState TextResult.networkError demoOracle).2.isLoading = false :=
  ⟨by decide,
    ((C6_busy_flag_span demoState TextResult.networkError demoOracle).1 (by decide)).1,
    ((C6_busy_flag_span demoState TextResult.networkError demoOracle).1 (by decide)).2⟩

/-- C10: every non-blank invocation clears the previous error to absent
before issuing any network call: the trace's second event is the clearing
`setError none`, and every network-call event sits strictly later. -/
theorem C10_error_cleared (st : AppState) (t : TextResult)
    (oracle : Nat → Option String) (hb : isBlank st.concept = false) :
    (generateStoryboard st t oracle).1[1]? = some (Event.setError none) ∧
    ∀ j, ((generateStoryboard st t oracle).1[j]? = some Event.textCall ∨
        (∃ i, (generateStoryboard st t oracle).1[j]? = some (Event.imageCall i))) →
      2 ≤ j := by
  cases t with
  | networkError =>
    rw [run_networkError st oracle hb]
    refine ⟨rfl, ?_⟩
    intro j hj
    by_contra hlt
    push_neg at hlt
    interval_cases j <;> simp at hj
  | response p =>
    cases hmk : p.bind mkInitialStoryboard with
    | none =>
      rw [run_badParse st oracle p hb hmk]
      refine ⟨rfl, ?_⟩
      intro j hj
      by_contra hlt
      push_neg at hlt
      interval_cases j <;> simp at hj
    | some init =>
      rw [run_install st oracle p init hb hmk]
      refine ⟨rfl, ?_⟩
      intro j hj
      by_contra hlt
      push_neg at hlt
      interval_cases j <;> simp [List.cons_append] at hj

/-- Witness for C10: the fatal-abort path clears the error first. -/
theorem C10_error_cleared_witness :
    isBlank demoState.concept = false ∧
    (generateStoryboard demoState TextResult.networkError demoOracle).1[1]? =
      some (Event.setError none) :=
  ⟨by decide, (C10_error_cleared demoState TextResult.networkError demoOracle (by decide)).1⟩

/-- C2: per-scene image failures are isolated. Whenever a run installs a
5-scene storyboard, the run completes all 5 scenes whatever the image
outcomes: every scene ends with its loading flag false, a failed scene ends
with no image URL, a successful scene ends with its data URI, and no image
failure reaches the caller or aborts the run: the final error is absent and
the busy flag is false. -/
theorem C2_image_failure_isolated (st : AppState) (oracle : Nat → Option String)
    (p : Option Json) (init : List Scene)
    (hb : isBlank st.concept = false) (hinit : p.bind mkInitialStoryboard = some init)
    (h5 : init.length = 5) :
    (generateStoryboard st (TextResult.response p) oracle).2.storyboard.length = 5 ∧
    (∀ i s,
      (generateStoryboard st (TextResult.response p) oracle).2.storyboard[i]? = some s →
      s.isLoadingImage = false ∧
      (oracle i = none → s.imageUrl = none) ∧
      (∀ bytes, oracle i = some bytes → s.imageUrl = some (dataUrl bytes))) ∧
    (generateStoryboard st (TextResult.response p) oracle).2.error = none ∧
    (generateStoryboard st (TextResult.response p) oracle).2.isLoading = false := by
  rw [run_install st oracle p init hb hinit]
  refine ⟨?_, ?_, rfl, rfl⟩
  · show ((imageLoop oracle 0 init.length init).2).length = 5
    rw [imageLoop_length oracle init.length 0 init, h5]
  · intro i s hs
    have hs' : ((imageLoop oracle 0 init.length init).2)[i]? = some s := hs
    have hi : i < init.length := by
      rcases List.getElem?_eq_some.mp hs' with ⟨hlt, -⟩
      rwa [imageLoop_length oracle init.length 0 init] at hlt
    rw [imageLoop_get oracle init.length 0 init i,
      if_pos (show 0 ≤ i ∧ i < 0 + init.length by omega)] at hs'
    cases hini : init[i]? with
    | none => rw [hini] at hs'; simp at hs'
    | some s0 =>
      rw [hini] at hs'
      simp only [Option.map_some'] at hs'
      have hss : s = sceneAfterImage (oracle i) s0 := by
        exact (Option.some.injEq _ _ ▸ hs').symm
      subst hss
      cases horacle : oracle i with
      | none =>
        refine ⟨rfl, fun _ => rfl, ?_⟩
        intro bytes hbytes
        exact absurd hbytes (by simp)
      | some b =>
        refine ⟨rfl, ?_, ?_⟩
        · intro hnone
          exact absurd hnone (by simp)
        · intro bytes hbytes
          have hbb : b = bytes := by injection hbytes
          subst hbb
          rfl

/-- Witness for C2: a 5-scene run in which only scene 2's image call fails. -/
theorem C2_image_failure_isolated_witness :
    (generateStoryboard demoState (TextResult.response (some (Json.arr demoElems)))
      demoOracle).2.storyboard.length = 5 ∧
    (generateStoryboard demoState (TextResult.response (some (Json.arr demoElems)))
      demoOracle).2.error = none :=
  ⟨(C2_image_failure_isolated demoState demoOracle (some (Json.arr demoElems)) demoInit
      (by decide) rfl rfl).1,
    (C2_image_failure_isolated demoState demoOracle (some (Json.arr demoElems)) demoInit
      (by decide) rfl rfl).2.2.1⟩

/-- C4: snapshot ordering for a run installing a 5-scene storyboard. The
published snapshots are the initial clear, then the installed storyboard
(all scenes loading, no image), then one snapshot per scene; consecutive
snapshots from the install on differ only at the one new index k, whose
scene goes from loading to not loading keeping its narration, gaining its
data URI on success and staying image-less on failure; narrations never
change across snapshots. -/
theorem C4_snapshot_ordering (st : AppState) (oracle : Nat → Option String)
    (p : Option Json) (init : List Scene)
    (hb : isBlank st.concept = false) (hinit : p.bind mkInitialStoryboard = some init)
    (h5 : init.length = 5) :
    publishedStoryboards (generateStoryboard st (TextResult.response p) oracle).1 =
      [] :: init :: loopSnapshots oracle 0 5 init ∧
    (∀ s ∈ init, s.isLoadingImage = true ∧ s.imageUrl = none) ∧
    (loopSnapshots oracle 0 5 init).length = 5 ∧
    (∀ k a b, (init :: loopSnapshots oracle 0 5 init)[k]? = some a →
      (init :: loopSnapshots oracle 0 5 init)[k + 1]? = some b →
      (∀ m, m ≠ k → b[m]? = a[m]?) ∧
      (∃ s s', a[k]? = some s ∧ b[k]? = some s' ∧
        s.isLoadingImage = true ∧ s'.isLoadingImage = false ∧
        s'.narration = s.narration ∧
        ((oracle k = none ∧ s'.imageUrl = none) ∨
          (∃ bytes, oracle k = some bytes ∧ s'.imageUrl = some (dataUrl bytes))))) ∧
    (∀ sb ∈ init :: loopSnapshots oracle 0 5 init,
      sb.map Scene.narration = init.map Scene.narration) := by
  obtain ⟨elems, hp, hmk⟩ := bind_mkInitialStoryboard_some p init hinit
  have hpend := mkScenes_pending elems init hmk
  have hmain := publishedStoryboards_install st oracle p init hb hinit
  rw [h5] at hmain
  refine ⟨hmain, fun s hs => ⟨(hpend s hs).2, (hpend s hs).1⟩,
    loopSnapshots_length oracle 5 0 init, ?_, ?_⟩
  · intro k a b ha hb'
    have hlen6 : (init :: loopSnapshots oracle 0 5 init).length = 6 := by
      simp [loopSnapshots_length oracle 5 0 init]
    have hk5 : k < 5 := by
      rcases List.getElem?_eq_some.mp hb' with ⟨hlt, -⟩
      omega
    have hga := install_snapshots_get oracle init k (by omega)
    have hgb := install_snapshots_get oracle init (k + 1) (by omega)
    rw [h5] at hga hgb
    rw [hga] at ha
    rw [hgb] at hb'
    have haa : a = (imageLoop oracle 0 k init).2 := (Option.some.inj ha).symm
    have hbb : b = (imageLoop oracle 0 (k + 1) init).2 := (Option.some.inj hb').symm
    subst haa
    subst hbb
    constructor
    · intro m hm
      rw [imageLoop_get oracle k 0 init m, imageLoop_get oracle (k + 1) 0 init m]
      by_cases hmk' : m < k
      · rw [if_pos (show 0 ≤ m ∧ m < 0 + k by omega),
          if_pos (show 0 ≤ m ∧ m < 0 + (k + 1) by omega)]
      · rw [if_neg (show ¬ (0 ≤ m ∧ m < 0 + k) by omega),
          if_neg (show ¬ (0 ≤ m ∧ m < 0 + (k + 1)) by omega)]
    · have hik : k < init.length := by omega
      have hgetk : init[k]? = some init[k] := List.getElem?_eq_getElem hik
      refine ⟨init[k], sceneAfterImage (oracle k) init[k], ?_, ?_, ?_, ?_, ?_, ?_⟩
      · rw [imageLoop_get oracle k 0 init k,
          if_neg (show ¬ (0 ≤ k ∧ k < 0 + k) by omega), hgetk]
      · rw [imageLoop_get oracle (k + 1) 0 init k,
          if_pos (show 0 ≤ k ∧ k < 0 + (k + 1) by omega), hgetk]
        rfl
      · exact (hpend init[k] (List.getElem_mem hik)).2
      · cases oracle k <;> rfl
      · exact narration_sceneAfterImage (oracle k) init[k]
      · cases horacle : oracle k with
        | none => exact Or.inl ⟨rfl, rfl⟩
        | some bytes => exact Or.inr ⟨bytes, rfl, rfl⟩
  · intro sb hsb
    rcases List.mem_cons.mp hsb with hsb | hsb
    · rw [hsb]
    · exact mem_loopSnapshots_map_narration oracle 5 0 init sb hsb

/-- Witness for C4: the demo run whose scene-2 image call fails. -/
theorem C4_snapshot_ordering_witness :
    publishedStoryboards (generateStoryboard demoState
        (TextResult.response (some (Json.arr demoElems))) demoOracle).1 =
      [] :: demoInit :: loopSnapshots demoOracle 0 5 demoInit :=
  (C4_snapshot_ordering demoState demoOracle (some (Json.arr demoElems)) demoInit
    (by decide) rfl rfl).1

/-- C1 as stated fails on the code: with a non-blank concept and a text call
that succeeds (its response, the empty JSON array, even conforms to the
declared schema), the run finishes without error yet the storyboard has 0
scenes, not 5 — the code never checks the returned scene count. -/
theorem C1_counterexample :
    isBlank demoState.concept = false ∧
    (generateStoryboard demoState (TextResult.response (some (Json.arr [])))
      demoOracle).2.error = none ∧
    ¬ (generateStoryboard demoState (TextResult.response (some (Json.arr [])))
      demoOracle).2.storyboard.length = 5 :=
  ⟨by decide, rfl, by decide⟩

/-- C1 amended: a successful run yields one scene per element of the parsed
response array, narrations read from those elements; in particular when the
service returns exactly 5 descriptors, each an object carrying a non-empty
narration string, the run yields exactly 5 scenes with non-empty narration,
and no later published snapshot ever resizes or reorders the storyboard
(each keeps its length and its narration sequence). -/
theorem C1_five_scenes (st : AppState) (oracle : Nat → Option String)
    (elems : List Json) (init : List Scene)
    (hb : isBlank st.concept = false)
    (hmk : mkScenes elems = some init)
    (h5 : elems.length = 5)
    (hgood : ∀ e ∈ elems, ∃ n, n ≠ "" ∧
      getField e "narration" = some (some (Json.str n))) :
    (generateStoryboard st (TextResult.response (some (Json.arr elems)))
      oracle).2.storyboard.length = 5 ∧
    (∀ s ∈ (generateStoryboard st (TextResult.response (some (Json.arr elems)))
        oracle).2.storyboard,
      ∃ n, n ≠ "" ∧ s.narration = some (Json.str n)) ∧
    (∀ sb ∈ publishedStoryboards (generateStoryboard st
        (TextResult.response (some (Json.arr elems))) oracle).1,
      sb = [] ∨ (sb.length = 5 ∧ sb.map Scene.narration = init.map Scene.narration)) := by
  have hinit : (some (Json.arr elems)).bind mkInitialStoryboard = some init := by
    simp [mkInitialStoryboard, hmk]
  have hlen : init.length = 5 := by rw [mkScenes_length elems init hmk]; exact h5
  have hpub := publishedStoryboards_install st oracle (some (Json.arr elems)) init hb hinit
  refine ⟨?_, ?_, ?_⟩
  · rw [run_install st oracle _ init hb hinit]
    show ((imageLoop oracle 0 init.length init).2).length = 5
    rw [imageLoop_length oracle init.length 0 init, hlen]
  · rw [run_install st oracle _ init hb hinit]
    intro s hs
    have hmem : s.narration ∈
        ((imageLoop oracle 0 init.length init).2).map Scene.narration :=
      List.mem_map_of_mem Scene.narration hs
    rw [imageLoop_map_narration oracle init.length 0 init] at hmem
    obtain ⟨s', hs', heq⟩ := List.mem_map.mp hmem
    obtain ⟨e, he, hg⟩ := mkScenes_narration_mem elems init hmk s' hs'
    obtain ⟨n, hn, hgn⟩ := hgood e he
    rw [hg] at hgn
    have hsn : s'.narration = some (Json.str n) := by injection hgn
    exact ⟨n, hn, by rw [← heq, hsn]⟩
  · rw [hpub]
    intro sb hsb
    rcases List.mem_cons.mp hsb with hsb | hsb
    · exact Or.inl hsb
    rcases List.mem_cons.mp hsb with hsb | hsb
    · exact Or.inr ⟨by rw [hsb, hlen], by rw [hsb]⟩
    · have h1 := mem_loopSnapshots_map_narration oracle init.length 0 init sb hsb
      have h2 : sb.length = init.length := by
        have h3 := congrArg List.length h1
        simpa using h3
      exact Or.inr ⟨by rw [h2, hlen], h1⟩

/-- Witness for C1's amended statement: five well-formed descriptors. -/
theorem C1_five_scenes_witness :
    (generateStoryboard demoState (TextResult.response (some (Json.arr demoElems)))
      demoOracle).2.storyboard.length = 5 :=
  (C1_five_scenes demoState demoOracle demoElems demoInit (by decide) rfl rfl
    (by
      intro e he
      simp only [demoElems, demoElem, List.mem_cons, List.not_mem_nil, or_false] at he
      rcases he with he | he | he | he | he <;>
        exact ⟨"Glitch sees a rocket.", by decide, by rw [he]; rfl⟩)).1

/-- C3 as stated fails on the code: the response `[{}]` does not conform to
the declared schema (its only element carries no narration string), yet the
run accepts it — no error is surfaced and a 1-scene storyboard whose
narration is undefined is produced. -/
theorem C3_counterexample :
    (generateStoryboard demoState (TextResult.response (some (Json.arr [Json.obj []])))
      demoOracle).2.error = none ∧
    (generateStoryboard demoState (TextResult.response (some (Json.arr [Json.obj []])))
      demoOracle).2.storyboard.length = 1 ∧
    ∀ s ∈ (generateStoryboard demoState
        (TextResult.response (some (Json.arr [Json.obj []]))) demoOracle).2.storyboard,
      s.narration = none := by
  refine ⟨rfl, rfl, ?_⟩
  intro s hs
  have he : (generateStoryboard demoState
      (TextResult.response (some (Json.arr [Json.obj []]))) demoOracle).2.storyboard =
      [{ narration := none, imageUrl := some (dataUrl "QUJD"), isLoadingImage := false }] :=
    rfl
  rw [he] at hs
  rcases List.mem_cons.mp hs with hs | hs
  · rw [hs]
  · exact absurd hs (List.not_mem_nil s)

/-- C3 amended: the run fails with the GenerationError message exactly when
the response text is not valid JSON, its value is not an array, or an
element access throws (a null element); every other JSON array is accepted
element-wise as the storyboard, with no validation of the scene or narration
fields. -/
theorem C3_generation_error_iff (st : AppState) (oracle : Nat → Option String)
    (p : Option Json) (hb : isBlank st.concept = false) :
    ((generateStoryboard st (TextResult.response p) oracle).2.error = some failMsg ↔
      p.bind mkInitialStoryboard = none) ∧
    (∀ init, p.bind mkInitialStoryboard = some init →
      (generateStoryboard st (TextResult.response p) oracle).2.storyboard.length =
        init.length ∧
      (generateStoryboard st (TextResult.response p) oracle).2.error = none) := by
  cases hmk : p.bind mkInitialStoryboard with
  | none =>
    rw [run_badParse st oracle p hb hmk]
    exact ⟨⟨fun _ => rfl, fun _ => rfl⟩, fun init h => by simp at h⟩
  | some init =>
    rw [run_install st oracle p init hb hmk]
    refine ⟨⟨fun h => by simp at h, fun h => by simp at h⟩, ?_⟩
    intro init' h
    have hii : init = init' := by injection h
    subst hii
    exact ⟨imageLoop_length oracle init.length 0 init, rfl⟩

/-- Witness for C3's amended statement: an unparsable response text. -/
theorem C3_generation_error_iff_witness :
    isBlank demoState.concept = false ∧
    ((generateStoryboard demoState (TextResult.response none) demoOracle).2.error =
        some failMsg ↔
      (none : Option Json).bind mkInitialStoryboard = none) :=
  ⟨by decide, (C3_generation_error_iff demoState demoOracle none (by decide)).1⟩

end Storyboard
